import Mathlib

/-!
Shallow embedding of `apps/dsaparam.c` (OpenSSL's DSA-parameter command-line
tool), restricted to the orchestration logic of `dsaparam_main` and the
progress callback `gendsa_cb`.  External library calls (BIO opening,
paramgen, codecs, keygen) are modelled by an `Oracle` record carrying their
results; the run function mirrors the C control flow (each `goto end`
becomes an early return with `ret = 1`).
-/

/-- Serialization formats accepted by `-inform`/`-outform`
(`FORMAT_PEM` / `FORMAT_ASN1`, the latter being DER). -/
inductive Format where
  | PEM
  | ASN1
deriving DecidableEq, Repr

/-- DSA domain parameters (p, q, g), the payload of an `EVP_PKEY` holding
key parameters.  The orchestrator treats them opaquely; we carry the
numeric values so the `-C` rendering can be checked. -/
structure DomainParams where
  p : Nat
  q : Nat
  g : Nat
deriving DecidableEq, Repr

/-- Modelled from the spec: `BN_num_bits` (bignum library, outside `src/`),
the number of significant bits of a value: 0 for 0, otherwise
floor(log2 n) + 1. -/
def numBits (n : Nat) : Nat :=
  if n = 0 then 0 else Nat.log2 n + 1

/-- Modelled from the spec: `BN_bn2bin` (bignum library, outside `src/`),
the big-endian minimal byte representation of a value (empty for 0,
no leading zero byte otherwise). -/
def bn2bin (n : Nat) : List Nat :=
  (Nat.digits 256 n).reverse

/-- Modelled from the spec: `BN_bin2bn` (bignum library, outside `src/`),
decoding a big-endian byte string back into a value. -/
def bin2bn (bs : List Nat) : Nat :=
  Nat.ofDigits 256 bs.reverse

/-- The content of the C-code fragment emitted by the `-C` option
(lines 203-239 of `dsaparam.c`): a function named `get_dsa<bits_p>`
and the byte arrays printed by `print_bignum_var` for p, q, g
(the latter modelled from the spec as big-endian minimal bytes,
`print_bignum_var` lives in the apps library outside `src/`). -/
structure CFragment where
  funcName : String
  pBytes : List Nat
  qBytes : List Nat
  gBytes : List Nat
deriving DecidableEq, Repr

/-- Rendering of the `-C` source-code fragment for a given parameter set
(`dsaparam.c` lines 203-239): `bits_p = BN_num_bits(p)` suffixes the
function name, and each of p, q, g is emitted as its byte array. -/
def cFragment (ps : DomainParams) : CFragment :=
  { funcName := "get_dsa" ++ toString (numBits ps.p)
    pBytes := bn2bin ps.p
    qBytes := bn2bin ps.q
    gBytes := bn2bin ps.g }

/-- A record written to a byte stream during the run: the structured text
dump (`EVP_PKEY_print_params`), the `-C` source-code fragment, serialized
parameters (DER via `i2d_KeyParams_bio` or PEM via
`PEM_write_bio_Parameters`), or a serialized private key
(`i2d_PrivateKey_bio` / `PEM_write_bio_PrivateKey`).  Keys are carried as
an opaque numeric id. -/
inductive Rec where
  | textDump (ps : DomainParams)
  | sourceCode (f : CFragment)
  | paramsDER (ps : DomainParams)
  | paramsPEM (ps : DomainParams)
  | privKeyDER (k : Nat)
  | privKeyPEM (k : Nat)
deriving DecidableEq, Repr

/-- A record is one of the serialized (DER/PEM structured) records, as
opposed to the human-readable text dump or the source-code fragment. -/
def Rec.isSerialized : Rec → Bool
  | .paramsDER _ => true
  | .paramsPEM _ => true
  | .privKeyDER _ => true
  | .privKeyPEM _ => true
  | _ => false

/-- A record is a serialized private key. -/
def Rec.isPrivKey : Rec → Bool
  | .privKeyDER _ => true
  | .privKeyPEM _ => true
  | _ => false

/-- A record is the `-C` source-code fragment. -/
def Rec.isSourceCode : Rec → Bool
  | .sourceCode _ => true
  | _ => false

/-- The serialized records of a stream, in order. -/
def serializedRecs (l : List Rec) : List Rec :=
  l.filter Rec.isSerialized

/-- Diagnostic messages printed to `bio_err` by `dsaparam_main` (each
constructor corresponds to one `BIO_printf` site in the C source). -/
inductive Diag where
  | ctxAllocFailed
  | maxBitsWarning (maxBits numbits : Int)
  | generatingMsg (num : Int)
  | couldTakeTime
  | paramgenInitFailed
  | setBitsFailed
  | paramgenFailed
  | unableToLoad
  | unableToWriteParams
  | keyCtxAllocFailed
  | keygenInitFailed
  | keygenFailed
deriving DecidableEq, Repr

/-- The command-line configuration after option parsing: the variables of
`dsaparam_main` as set by the option loop (lines 79-131), plus the
remaining positional arguments.  A positional argument is `some n` when
`opt_int` parses it to `n` and `none` when `opt_int` fails. -/
structure Cmdline where
  infile : Option String := none
  informat : Format := .PEM
  outfile : Option String := none
  outformat : Format := .PEM
  text : Bool := false
  C : Bool := false
  noout : Bool := false
  genkey : Bool := false
  verbose : Bool := false
  positional : List (Option Int) := []
deriving Repr

/-- Results of the external library calls made by one run, in the order
the code can make them.  `none`/`false` means the call fails. -/
structure Oracle where
  openInOk : Bool := true
  openOutOk : Bool := true
  ctxNewOk : Bool := true
  paramgenInitOk : Bool := true
  setBitsOk : Bool := true
  paramgenResult : Option DomainParams := none
  derDecode : Option DomainParams := none
  pemDecode : Option DomainParams := none
  writeParamsOk : Bool := true
  keyCtxNewOk : Bool := true
  keygenInitOk : Bool := true
  keygenResult : Option Nat := none
  writeKeyOk : Bool := true
deriving Repr

/-- Observable state of one run: the records written to the configured
output stream `out`, the records written to the standard output stream
`bio_out`, the diagnostics written to `bio_err`, which streams were
opened, whether parameter generation was invoked (and with which bit
length), whether input decoding was attempted, the resolved parameters,
and the exit code `ret` (initialized to 1 as in the C source). -/
structure RunState where
  out : List Rec := []
  stdout : List Rec := []
  diag : List Diag := []
  inOpened : Bool := false
  outOpened : Bool := false
  paramgenInvoked : Bool := false
  genBitsRequested : Option Int := none
  inputDecoded : Bool := false
  params : Option DomainParams := none
  ret : Nat := 1
deriving DecidableEq, Repr

/-- `OPENSSL_DSA_MAX_MODULUS_BITS` from `<openssl/dsa.h>`: the advisory
ceiling on DSA modulus bit lengths. -/
def OPENSSL_DSA_MAX_MODULUS_BITS : Int := 10000

/-- Processing of the positional arguments (`dsaparam.c` lines 132-140):
with exactly one positional argument the run parses it with `opt_int`
and rejects a parse failure or a negative value (`goto end`, modelled as
`none`); otherwise `numbits` keeps its initial value -1.  On the
single-argument success path `num` and `numbits` are assigned the same
parsed value, so one variable stands for both. -/
def parseNumbits : List (Option Int) → Option Int
  | [some n] => if n < 0 then none else some n
  | [none] => none
  | _ => some (-1)

/-- Parameter source resolution (`dsaparam.c` lines 157-192): with a
positive `numbits`, warn above the ceiling, print the verbose banner,
and run paramgen init / set-bits / paramgen, any failure printing its
diagnostic and jumping to `end` (`.error`); otherwise decode the input
stream with the decoder selected by `informat`.  `.ok` carries the state
and the `params` value as they stand at line 193. -/
def resolvePhase (cfg : Cmdline) (orc : Oracle) (numbits : Int) (s : RunState) :
    Except RunState (RunState × Option DomainParams) :=
  if numbits > 0 then
    let s := if numbits > OPENSSL_DSA_MAX_MODULUS_BITS then
        { s with diag := s.diag ++ [.maxBitsWarning OPENSSL_DSA_MAX_MODULUS_BITS numbits] }
      else s
    let s := if cfg.verbose then
        { s with diag := s.diag ++ [.generatingMsg numbits, .couldTakeTime] }
      else s
    if !orc.paramgenInitOk then
      .error { s with diag := s.diag ++ [.paramgenInitFailed] }
    else if !orc.setBitsOk then
      .error { s with diag := s.diag ++ [.setBitsFailed] }
    else
      let s := { s with paramgenInvoked := true, genBitsRequested := some numbits }
      match orc.paramgenResult with
      | none => .error { s with diag := s.diag ++ [.paramgenFailed] }
      | some ps => .ok ({ s with params := some ps }, some ps)
  else
    let s := { s with inputDecoded := true }
    let r := if cfg.informat = .ASN1 then orc.derDecode else orc.pemDecode
    .ok ({ s with params := r }, r)

/-- Key derivation and private-key output (`dsaparam.c` lines 255-280):
when `-genkey` is set, allocate a keygen context from the parameters,
init, and generate, any failure printing its diagnostic and jumping to
`end`; then write the private key in the configured format.  The write's
result is stored in `i` but never checked in the source, so a failed
write leaves no record and still falls through to `ret = 0`. -/
def keyPhase (cfg : Cmdline) (orc : Oracle) (s : RunState) : RunState :=
  if cfg.genkey then
    if !orc.keyCtxNewOk then
      { s with diag := s.diag ++ [.keyCtxAllocFailed] }
    else if !orc.keygenInitOk then
      { s with diag := s.diag ++ [.keygenInitFailed] }
    else
      match orc.keygenResult with
      | none => { s with diag := s.diag ++ [.keygenFailed] }
      | some k =>
        let s := if orc.writeKeyOk then
            { s with out := s.out ++
                [if cfg.outformat = .ASN1 then Rec.privKeyDER k else Rec.privKeyPEM k] }
          else s
        { s with ret := 0 }
  else
    { s with ret := 0 }

/-- Rendering of resolved parameters (`dsaparam.c` lines 199-254): the
text dump to `out` when `-text` is set, the source-code fragment to
`bio_out` (not `out`) when `-C` is set, then `noout` is forced when the
output format is DER and `-genkey` is set, and unless `noout` the
parameters are serialized to `out` in the configured format (a failed
write printing its diagnostic and jumping to `end`); control then
reaches the key-derivation step. -/
def renderPhase (cfg : Cmdline) (orc : Oracle) (ps : DomainParams) (s : RunState) : RunState :=
  let s := if cfg.text then { s with out := s.out ++ [.textDump ps] } else s
  let s := if cfg.C then { s with stdout := s.stdout ++ [.sourceCode (cFragment ps)] } else s
  let noout := if cfg.outformat = .ASN1 && cfg.genkey then true else cfg.noout
  if !noout then
    if orc.writeParamsOk then
      keyPhase cfg orc
        { s with out := s.out ++
            [if cfg.outformat = .ASN1 then Rec.paramsDER ps else Rec.paramsPEM ps] }
    else
      { s with diag := s.diag ++ [.unableToWriteParams] }
  else
    keyPhase cfg orc s

/-- The orchestration body of `dsaparam_main` after option parsing
(`dsaparam.c` lines 132-289): positional-argument processing, stream
opening (`bio_open_default` / `bio_open_owner`, which print their own
errors), paramgen-context allocation, source resolution, the
`params == NULL` check at line 193, rendering, and key derivation.
Every `goto end` is an early return with `ret` still 1. -/
def dsaparam_main (cfg : Cmdline) (orc : Oracle) : RunState :=
  let s0 : RunState := {}
  match parseNumbits cfg.positional with
  | none => s0
  | some numbits =>
    if !orc.openInOk then s0
    else
      let s1 := { s0 with inOpened := true }
      if !orc.openOutOk then s1
      else
        let s2 := { s1 with outOpened := true }
        if !orc.ctxNewOk then { s2 with diag := s2.diag ++ [.ctxAllocFailed] }
        else
          match resolvePhase cfg orc numbits s2 with
          | .error s => s
          | .ok (s, pres) =>
            match pres with
            | none => { s with diag := s.diag ++ [.unableToLoad] }
            | some ps => renderPhase cfg orc ps s

/-- An action on the diagnostic stream performed by the progress
callback: a one-character `BIO_write` or a `BIO_flush`. -/
inductive DiagAct where
  | write (c : Char)
  | flush
deriving DecidableEq, Repr

/-- The character table `".+*\n"` of `gendsa_cb` (without the
terminating NUL, so four usable entries). -/
def symbols : List Char := ['.', '+', '*', '\n']

/-- The character `gendsa_cb` selects for keygen-info value `p`
(`dsaparam.c` line 303): `symbols[p]` when `0 <= p < 4`, `'?'`
otherwise. -/
def cbChar (p : Int) : Char :=
  if 0 ≤ p ∧ p < 4 then symbols.getD p.toNat '?' else '?'

/-- The progress callback `gendsa_cb` (`dsaparam.c` lines 291-308), as
the list of diagnostic-stream actions one invocation performs: nothing
when `verbose` is off, otherwise one one-character write followed by a
flush.  (The callback's return value is the constant 1 on every path.) -/
def gendsa_cb (verbose : Bool) (p : Int) : List DiagAct :=
  if !verbose then []
  else [.write (cbChar p), .flush]

/-! ### Concrete configurations and oracles used by witnesses and
counterexamples -/

/-- A sample parameter set. -/
def psSample : DomainParams := { p := 1543, q := 257, g := 300 }

/-- An all-succeeding oracle resolving to `psSample` on every source and
generating key id 42. -/
def orcAll : Oracle :=
  { paramgenResult := some psSample
    derDecode := some psSample
    pemDecode := some psSample
    keygenResult := some 42 }

/-! ### Helper lemmas about the phases -/

theorem bin2bn_bn2bin (n : Nat) : bin2bn (bn2bin n) = n := by
  simp [bin2bn, bn2bin, Nat.ofDigits_digits]

theorem bn2bin_head_ne_zero (n : Nat) : (bn2bin n).head? ≠ some 0 := by
  by_cases hn : n = 0
  · subst hn; simp [bn2bin]
  · rw [bn2bin, List.head?_reverse]
    rw [List.getLast?_eq_getLast_of_ne_nil (Nat.digits_ne_nil_iff_ne_zero.mpr hn)]
    intro h
    exact Nat.getLast_digit_ne_zero 256 hn (by injection h)

theorem keyPhase_frame (cfg : Cmdline) (orc : Oracle) (s : RunState) :
    (keyPhase cfg orc s).inOpened = s.inOpened
    ∧ (keyPhase cfg orc s).outOpened = s.outOpened
    ∧ (keyPhase cfg orc s).paramgenInvoked = s.paramgenInvoked
    ∧ (keyPhase cfg orc s).genBitsRequested = s.genBitsRequested
    ∧ (keyPhase cfg orc s).inputDecoded = s.inputDecoded
    ∧ (keyPhase cfg orc s).params = s.params
    ∧ (keyPhase cfg orc s).stdout = s.stdout := by
  unfold keyPhase
  repeat' split
  all_goals simp

theorem keyPhase_inOpened (cfg : Cmdline) (orc : Oracle) (s : RunState) :
    (keyPhase cfg orc s).inOpened = s.inOpened := (keyPhase_frame cfg orc s).1

theorem keyPhase_outOpened (cfg : Cmdline) (orc : Oracle) (s : RunState) :
    (keyPhase cfg orc s).outOpened = s.outOpened := (keyPhase_frame cfg orc s).2.1

theorem keyPhase_paramgenInvoked (cfg : Cmdline) (orc : Oracle) (s : RunState) :
    (keyPhase cfg orc s).paramgenInvoked = s.paramgenInvoked := (keyPhase_frame cfg orc s).2.2.1

theorem keyPhase_genBitsRequested (cfg : Cmdline) (orc : Oracle) (s : RunState) :
    (keyPhase cfg orc s).genBitsRequested = s.genBitsRequested :=
  (keyPhase_frame cfg orc s).2.2.2.1

theorem keyPhase_inputDecoded (cfg : Cmdline) (orc : Oracle) (s : RunState) :
    (keyPhase cfg orc s).inputDecoded = s.inputDecoded := (keyPhase_frame cfg orc s).2.2.2.2.1

theorem keyPhase_params (cfg : Cmdline) (orc : Oracle) (s : RunState) :
    (keyPhase cfg orc s).params = s.params := (keyPhase_frame cfg orc s).2.2.2.2.2.1

theorem keyPhase_stdout (cfg : Cmdline) (orc : Oracle) (s : RunState) :
    (keyPhase cfg orc s).stdout = s.stdout := (keyPhase_frame cfg orc s).2.2.2.2.2.2

theorem keyPhase_diag_mono (cfg : Cmdline) (orc : Oracle) (s : RunState) :
    ∃ l, (keyPhase cfg orc s).diag = s.diag ++ l := by
  unfold keyPhase
  repeat' split
  all_goals first
    | exact ⟨_, rfl⟩
    | exact ⟨[], (List.append_nil _).symm⟩

theorem renderPhase_frame (cfg : Cmdline) (orc : Oracle) (ps : DomainParams) (s : RunState) :
    (renderPhase cfg orc ps s).inOpened = s.inOpened
    ∧ (renderPhase cfg orc ps s).outOpened = s.outOpened
    ∧ (renderPhase cfg orc ps s).paramgenInvoked = s.paramgenInvoked
    ∧ (renderPhase cfg orc ps s).genBitsRequested = s.genBitsRequested
    ∧ (renderPhase cfg orc ps s).inputDecoded = s.inputDecoded
    ∧ (renderPhase cfg orc ps s).params = s.params := by
  unfold renderPhase
  cases hT : cfg.text <;> cases hC : cfg.C <;> cases hN : cfg.noout <;>
    cases hG : cfg.genkey <;> cases hW : orc.writeParamsOk <;> cases hF : cfg.outformat <;>
      simp [hT, hC, hN, hG, hW, hF, keyPhase_inOpened, keyPhase_outOpened,
        keyPhase_paramgenInvoked, keyPhase_genBitsRequested, keyPhase_inputDecoded,
        keyPhase_params]

theorem renderPhase_diag_mono (cfg : Cmdline) (orc : Oracle) (ps : DomainParams) (s : RunState) :
    ∃ l, (renderPhase cfg orc ps s).diag = s.diag ++ l := by
  unfold renderPhase
  cases hT : cfg.text <;> cases hC : cfg.C <;> cases hN : cfg.noout <;>
    cases hG : cfg.genkey <;> cases hW : orc.writeParamsOk <;> cases hF : cfg.outformat <;>
      simp only [hT, hC, hN, hG, hW, hF] <;>
        first
          | exact ⟨[Diag.unableToWriteParams], rfl⟩
          | (obtain ⟨l, hl⟩ := keyPhase_diag_mono cfg orc _; exact ⟨l, hl⟩)

theorem resolvePhase_error_frame {cfg : Cmdline} {orc : Oracle} {numbits : Int}
    {s t : RunState} (h : resolvePhase cfg orc numbits s = Except.error t) :
    t.ret = s.ret ∧ t.out = s.out ∧ t.stdout = s.stdout ∧ t.inOpened = s.inOpened
    ∧ t.outOpened = s.outOpened ∧ t.inputDecoded = s.inputDecoded ∧ t.params = s.params := by
  unfold resolvePhase at h
  repeat' split at h
  all_goals simp_all
  all_goals (subst h; simp)

theorem resolvePhase_ok_frame {cfg : Cmdline} {orc : Oracle} {numbits : Int}
    {s t : RunState} {r : Option DomainParams}
    (h : resolvePhase cfg orc numbits s = Except.ok (t, r)) :
    t.ret = s.ret ∧ t.out = s.out ∧ t.stdout = s.stdout ∧ t.inOpened = s.inOpened
    ∧ t.outOpened = s.outOpened ∧ t.params = r := by
  unfold resolvePhase at h
  repeat' split at h
  all_goals simp_all
  all_goals (obtain ⟨h1, h2⟩ := h; subst h1; subst h2; simp)

theorem resolvePhase_pos_error_bits {cfg : Cmdline} {orc : Oracle} {numbits : Int}
    {s t : RunState} (hn : 0 < numbits) (hpg : s.paramgenInvoked = false)
    (hgb : s.genBitsRequested = none)
    (h : resolvePhase cfg orc numbits s = Except.error t) :
    t.inputDecoded = s.inputDecoded
    ∧ t.genBitsRequested = (if t.paramgenInvoked = true then some numbits else none) := by
  unfold resolvePhase at h
  rw [if_pos hn] at h
  repeat' split at h
  all_goals simp_all
  all_goals (subst h; simp [hpg, hgb])

theorem resolvePhase_pos_ok_bits {cfg : Cmdline} {orc : Oracle} {numbits : Int}
    {s t : RunState} {r : Option DomainParams} (hn : 0 < numbits)
    (h : resolvePhase cfg orc numbits s = Except.ok (t, r)) :
    t.inputDecoded = s.inputDecoded ∧ t.paramgenInvoked = true
    ∧ t.genBitsRequested = some numbits
    ∧ ∃ ps, orc.paramgenResult = some ps ∧ r = some ps := by
  unfold resolvePhase at h
  rw [if_pos hn] at h
  repeat' split at h
  all_goals simp_all
  all_goals (obtain ⟨h1, h2⟩ := h; subst h1; subst h2; simp_all)

theorem resolvePhase_nonpos_eq (cfg : Cmdline) (orc : Oracle) (numbits : Int)
    (s : RunState) (hn : ¬ numbits > 0) :
    resolvePhase cfg orc numbits s =
      Except.ok
        ({ s with inputDecoded := true,
                  params := if cfg.informat = Format.ASN1 then orc.derDecode else orc.pemDecode },
         if cfg.informat = Format.ASN1 then orc.derDecode else orc.pemDecode) := by
  unfold resolvePhase
  rw [if_neg hn]

theorem resolvePhase_warn_error {cfg : Cmdline} {orc : Oracle} {numbits : Int}
    {s t : RunState} (hn : numbits > OPENSSL_DSA_MAX_MODULUS_BITS)
    (h : resolvePhase cfg orc numbits s = Except.error t) :
    Diag.maxBitsWarning OPENSSL_DSA_MAX_MODULUS_BITS numbits ∈ t.diag := by
  have hn0 : 0 < numbits := by
    have : (0 : Int) < OPENSSL_DSA_MAX_MODULUS_BITS := by decide
    omega
  unfold resolvePhase at h
  rw [if_pos hn0, if_pos hn] at h
  repeat' split at h
  all_goals simp_all
  all_goals (subst h; simp)

theorem resolvePhase_warn_ok {cfg : Cmdline} {orc : Oracle} {numbits : Int}
    {s t : RunState} {r : Option DomainParams}
    (hn : numbits > OPENSSL_DSA_MAX_MODULUS_BITS)
    (h : resolvePhase cfg orc numbits s = Except.ok (t, r)) :
    Diag.maxBitsWarning OPENSSL_DSA_MAX_MODULUS_BITS numbits ∈ t.diag := by
  have hn0 : 0 < numbits := by
    have : (0 : Int) < OPENSSL_DSA_MAX_MODULUS_BITS := by decide
    omega
  unfold resolvePhase at h
  rw [if_pos hn0, if_pos hn] at h
  repeat' split at h
  all_goals simp_all
  all_goals (obtain ⟨h1, h2⟩ := h; subst h1; simp)

theorem keyPhase_ret_zero {cfg : Cmdline} {orc : Oracle} {s : RunState}
    (hs : s.ret = 1) (h : (keyPhase cfg orc s).ret = 0) :
    (cfg.genkey = false ∧ keyPhase cfg orc s = { s with ret := 0 })
    ∨ (cfg.genkey = true ∧ ∃ k, orc.keygenResult = some k
        ∧ keyPhase cfg orc s =
            { s with
              out := s.out ++ (if orc.writeKeyOk then
                  [if cfg.outformat = Format.ASN1 then Rec.privKeyDER k else Rec.privKeyPEM k]
                else []),
              ret := 0 }) := by
  cases hG : cfg.genkey
  · exact Or.inl ⟨rfl, by simp [keyPhase, hG]⟩
  · cases hK : orc.keyCtxNewOk
    · exfalso; simp [keyPhase, hG, hK] at h; omega
    · cases hI : orc.keygenInitOk
      · exfalso; simp [keyPhase, hG, hK, hI] at h; omega
      · cases hR : orc.keygenResult with
        | none => exfalso; simp [keyPhase, hG, hK, hI, hR] at h; omega
        | some k =>
          refine Or.inr ⟨rfl, k, rfl, ?_⟩
          cases hW : orc.writeKeyOk <;> simp [keyPhase, hG, hK, hI, hR, hW]

theorem renderPhase_eq (cfg : Cmdline) (orc : Oracle) (ps : DomainParams) (s : RunState) :
    ((if cfg.outformat = Format.ASN1 && cfg.genkey then true else cfg.noout) = false
      ∧ orc.writeParamsOk = false
      ∧ (renderPhase cfg orc ps s).ret = s.ret)
    ∨ renderPhase cfg orc ps s =
        keyPhase cfg orc
          { s with
            out := s.out ++ (if cfg.text then [Rec.textDump ps] else [])
              ++ (if (if cfg.outformat = Format.ASN1 && cfg.genkey then true else cfg.noout)
                  then []
                  else [if cfg.outformat = Format.ASN1 then Rec.paramsDER ps
                        else Rec.paramsPEM ps]),
            stdout := s.stdout ++ (if cfg.C then [Rec.sourceCode (cFragment ps)] else []) } := by
  unfold renderPhase
  cases hT : cfg.text <;> cases hC : cfg.C <;> cases hN : cfg.noout <;>
    cases hG : cfg.genkey <;> cases hW : orc.writeParamsOk <;> cases hF : cfg.outformat <;>
      simp [hT, hC, hN, hG, hW, hF]

theorem renderPhase_ret_zero {cfg : Cmdline} {orc : Oracle} {ps : DomainParams} {s : RunState}
    (hs : s.ret = 1) (h : (renderPhase cfg orc ps s).ret = 0) :
    ∃ keyRecs,
      (renderPhase cfg orc ps s).out =
        s.out ++ (if cfg.text then [Rec.textDump ps] else [])
        ++ (if (if cfg.outformat = Format.ASN1 && cfg.genkey then true else cfg.noout) then []
            else [if cfg.outformat = Format.ASN1 then Rec.paramsDER ps else Rec.paramsPEM ps])
        ++ keyRecs
      ∧ (renderPhase cfg orc ps s).stdout =
          s.stdout ++ (if cfg.C then [Rec.sourceCode (cFragment ps)] else [])
      ∧ ((cfg.genkey = false ∧ keyRecs = [])
         ∨ (cfg.genkey = true ∧ ∃ k, orc.keygenResult = some k
             ∧ keyRecs = (if orc.writeKeyOk then
                 [if cfg.outformat = Format.ASN1 then Rec.privKeyDER k else Rec.privKeyPEM k]
               else []))) := by
  rcases renderPhase_eq cfg orc ps s with ⟨-, -, hr⟩ | heq
  · rw [hr, hs] at h
    exact absurd h one_ne_zero
  · rw [heq] at h ⊢
    have hs' : (RunState.ret
        { s with
          out := s.out ++ (if cfg.text then [Rec.textDump ps] else [])
            ++ (if (if cfg.outformat = Format.ASN1 && cfg.genkey then true else cfg.noout)
                then []
                else [if cfg.outformat = Format.ASN1 then Rec.paramsDER ps
                      else Rec.paramsPEM ps]),
          stdout := s.stdout ++ (if cfg.C then [Rec.sourceCode (cFragment ps)] else []) }) = 1 :=
      hs
    rcases keyPhase_ret_zero hs' h with ⟨hg, hk⟩ | ⟨hg, k, hkr, hk⟩
    · refine ⟨[], ?_, ?_, Or.inl ⟨hg, rfl⟩⟩
      · rw [congrArg RunState.out hk]; simp
      · rw [congrArg RunState.stdout hk]
    · refine ⟨_, ?_, ?_, Or.inr ⟨hg, k, hkr, rfl⟩⟩
      · rw [congrArg RunState.out hk]
      · rw [congrArg RunState.stdout hk]

theorem dsaparam_main_ret_zero {cfg : Cmdline} {orc : Oracle}
    (h : (dsaparam_main cfg orc).ret = 0) :
    ∃ ps keyRecs,
      (dsaparam_main cfg orc).params = some ps
      ∧ (dsaparam_main cfg orc).out =
          (if cfg.text then [Rec.textDump ps] else [])
          ++ (if (if cfg.outformat = Format.ASN1 && cfg.genkey then true else cfg.noout) then []
              else [if cfg.outformat = Format.ASN1 then Rec.paramsDER ps else Rec.paramsPEM ps])
          ++ keyRecs
      ∧ (dsaparam_main cfg orc).stdout = (if cfg.C then [Rec.sourceCode (cFragment ps)] else [])
      ∧ ((cfg.genkey = false ∧ keyRecs = [])
         ∨ (cfg.genkey = true ∧ ∃ k, orc.keygenResult = some k
             ∧ keyRecs = (if orc.writeKeyOk then
                 [if cfg.outformat = Format.ASN1 then Rec.privKeyDER k else Rec.privKeyPEM k]
               else []))) := by
  unfold dsaparam_main at h ⊢
  cases hpn : parseNumbits cfg.positional with
  | none => simp [hpn] at h
  | some numbits =>
    cases hin : orc.openInOk with
    | false => simp [hpn, hin] at h
    | true =>
      cases hout : orc.openOutOk with
      | false => simp [hpn, hin, hout] at h
      | true =>
        cases hctx : orc.ctxNewOk with
        | false => simp [hpn, hin, hout, hctx] at h
        | true =>
          simp only [hpn, hin, hout, hctx, Bool.not_true, Bool.not_false,
            Bool.false_eq_true, if_false] at h ⊢
          cases hres : resolvePhase cfg orc numbits { inOpened := true, outOpened := true } with
          | error t =>
            rw [hres] at h
            obtain ⟨hret, -⟩ := resolvePhase_error_frame hres
            simp at h hret
            omega
          | ok tp =>
            obtain ⟨t, pres⟩ := tp
            rw [hres] at h
            obtain ⟨hret, htout, htstd, -, -, htp⟩ := resolvePhase_ok_frame hres
            cases pres with
            | none =>
              simp at h hret
              omega
            | some ps =>
              simp only at h ⊢
              have ht1 : t.ret = 1 := by rw [hret]
              obtain ⟨keyRecs, hro, hrs, hdisj⟩ := renderPhase_ret_zero ht1 h
              refine ⟨ps, keyRecs, ?_, ?_, ?_, hdisj⟩
              · rw [(renderPhase_frame cfg orc ps t).2.2.2.2.2, htp]
              · rw [hro, htout]
                simp
              · rw [hrs, htstd]
                simp

theorem dsaparam_main_resolve_cases (cfg : Cmdline) (orc : Oracle) (numbits : Int)
    (hp : parseNumbits cfg.positional = some numbits)
    (hin : orc.openInOk = true) (hout : orc.openOutOk = true) (hctx : orc.ctxNewOk = true) :
    (∃ t, resolvePhase cfg orc numbits { inOpened := true, outOpened := true }
            = Except.error t
        ∧ dsaparam_main cfg orc = t)
    ∨ (∃ t, resolvePhase cfg orc numbits { inOpened := true, outOpened := true }
            = Except.ok (t, none)
        ∧ dsaparam_main cfg orc = { t with diag := t.diag ++ [Diag.unableToLoad] })
    ∨ (∃ t ps, resolvePhase cfg orc numbits { inOpened := true, outOpened := true }
            = Except.ok (t, some ps)
        ∧ dsaparam_main cfg orc = renderPhase cfg orc ps t) := by
  unfold dsaparam_main
  simp only [hp, hin, hout, hctx, Bool.not_true, Bool.not_false, Bool.false_eq_true, if_false]
  cases hres : resolvePhase cfg orc numbits { inOpened := true, outOpened := true } with
  | error t => exact Or.inl ⟨t, rfl, rfl⟩
  | ok tp =>
    obtain ⟨t, pres⟩ := tp
    cases pres with
    | none => exact Or.inr (Or.inl ⟨t, rfl, rfl⟩)
    | some ps => exact Or.inr (Or.inr ⟨t, ps, rfl, rfl⟩)

/-! ### Claim theorems -/

/-- Command line supplying both an input file and a positive bit-length
positional argument. -/
def cfgC1 : Cmdline := { infile := some "params.pem", positional := [some 512] }

/-- C1, counterexample: the invocation `dsaparam -in params.pem 512`
(both an input file and a positive bit length) is not rejected: the run
exits 0, the input stream is opened (I/O occurs), and generation is
started — contradicting the claim that such an invocation fails with an
`OptionError` before any I/O. -/
theorem c1_counterexample :
    (dsaparam_main cfgC1 orcAll).ret = 0
    ∧ (dsaparam_main cfgC1 orcAll).inOpened = true
    ∧ (dsaparam_main cfgC1 orcAll).paramgenInvoked = true :=
  ⟨rfl, rfl, rfl⟩

/-- C1, amended: supplying both an input file and a positive bit-length
argument is not rejected; the run opens the input stream but never reads
it (generation by bit length takes precedence over loading). -/
theorem c1_amended_no_rejection (cfg : Cmdline) (orc : Oracle) (n : Int) (f : String)
    (_hf : cfg.infile = some f)
    (hp : parseNumbits cfg.positional = some n) (hn : 0 < n)
    (hin : orc.openInOk = true) (hout : orc.openOutOk = true) (hctx : orc.ctxNewOk = true) :
    (dsaparam_main cfg orc).inOpened = true
    ∧ (dsaparam_main cfg orc).inputDecoded = false := by
  rcases dsaparam_main_resolve_cases cfg orc n hp hin hout hctx with
    ⟨t, hres, heq⟩ | ⟨t, hres, heq⟩ | ⟨t, ps, hres, heq⟩
  · obtain ⟨-, -, -, hio, -, hid, -⟩ := resolvePhase_error_frame hres
    rw [heq]
    exact ⟨by rw [hio], by rw [hid]⟩
  · obtain ⟨-, -, -, hr⟩ := resolvePhase_pos_ok_bits hn hres
    obtain ⟨ps, -, hps⟩ := hr
    simp at hps
  · obtain ⟨-, -, -, hio, -, -⟩ := resolvePhase_ok_frame hres
    obtain ⟨hid, -, -, -⟩ := resolvePhase_pos_ok_bits hn hres
    rw [heq]
    constructor
    · rw [(renderPhase_frame cfg orc ps t).1, hio]
    · rw [(renderPhase_frame cfg orc ps t).2.2.2.2.1, hid]

/-- C1 witness: the amended statement instantiated at `dsaparam -in
params.pem 512` with an all-succeeding oracle. -/
theorem c1_amended_no_rejection_witness :
    (dsaparam_main cfgC1 orcAll).inOpened = true
    ∧ (dsaparam_main cfgC1 orcAll).inputDecoded = false :=
  c1_amended_no_rejection cfgC1 orcAll 512 "params.pem" rfl (by decide) (by decide)
    rfl rfl rfl

/-- Command line requesting key generation with DER output. -/
def cfgC2 : Cmdline := { genkey := true, outformat := .ASN1 }

/-- C2: in every successful run that requests key derivation with DER
output, serialized-parameter output is suppressed and the output stream
receives exactly one serialized record, the derived private key. -/
theorem c2_der_genkey_single_record (cfg : Cmdline) (orc : Oracle)
    (hg : cfg.genkey = true) (hf : cfg.outformat = Format.ASN1)
    (hw : orc.writeKeyOk = true) (hr : (dsaparam_main cfg orc).ret = 0) :
    ∃ k, orc.keygenResult = some k
      ∧ serializedRecs (dsaparam_main cfg orc).out = [Rec.privKeyDER k] := by
  obtain ⟨ps, keyRecs, -, hout, -, hdisj⟩ := dsaparam_main_ret_zero hr
  rcases hdisj with ⟨hg', -⟩ | ⟨-, k, hkr, hkeq⟩
  · rw [hg] at hg'; cases hg'
  · refine ⟨k, hkr, ?_⟩
    rw [hout, hkeq]
    cases hT : cfg.text <;>
      simp [serializedRecs, hf, hg, hw, hT, Rec.isSerialized]

/-- C2 witness: the theorem instantiated at `dsaparam -genkey -outform
DER` with an all-succeeding oracle. -/
theorem c2_der_genkey_single_record_witness :
    ∃ k, orcAll.keygenResult = some k
      ∧ serializedRecs (dsaparam_main cfgC2 orcAll).out = [Rec.privKeyDER k] :=
  c2_der_genkey_single_record cfgC2 orcAll rfl rfl rfl (by decide)

/-- Command line requesting key generation (PEM output). -/
def cfgC3 : Cmdline := { genkey := true }

/-- Oracle in which everything succeeds except the final private-key
serialization (`i2d_PrivateKey_bio` / `PEM_write_bio_PrivateKey`). -/
def orcC3 : Oracle := { orcAll with writeKeyOk := false }

/-- C3, failing run: when the private-key write fails at the end of a
`-genkey` run, `dsaparam_main` still exits 0, prints no diagnostic, and
leaves no private-key record on the output stream: the write's result is
stored in `i` (line 276/278) but never checked, so the failure is
silently swallowed, contradicting the claimed exit-code contract. -/
theorem c3_keywrite_failure_silently_ignored :
    (dsaparam_main cfgC3 orcC3).ret = 0
    ∧ (dsaparam_main cfgC3 orcC3).diag = []
    ∧ (dsaparam_main cfgC3 orcC3).out.filter Rec.isPrivKey = [] :=
  ⟨rfl, rfl, rfl⟩

/-- C4: parameters come from exactly one source.  With a positive bit
length the input is never decoded and the generator, when invoked, is
invoked with that bit length; otherwise generation is never invoked and
the resolved parameters are the result of the decoder selected by the
configured input format (DER or PEM). -/
theorem c4_parameter_source_dichotomy (cfg : Cmdline) (orc : Oracle) (n : Int)
    (hp : parseNumbits cfg.positional = some n)
    (hin : orc.openInOk = true) (hout : orc.openOutOk = true) (hctx : orc.ctxNewOk = true) :
    (0 < n →
       (dsaparam_main cfg orc).inputDecoded = false
       ∧ (dsaparam_main cfg orc).genBitsRequested
           = (if (dsaparam_main cfg orc).paramgenInvoked = true then some n else none))
    ∧ (¬ 0 < n →
       (dsaparam_main cfg orc).paramgenInvoked = false
       ∧ (dsaparam_main cfg orc).inputDecoded = true
       ∧ (dsaparam_main cfg orc).params
           = (if cfg.informat = Format.ASN1 then orc.derDecode else orc.pemDecode)) := by
  constructor
  · intro hn
    rcases dsaparam_main_resolve_cases cfg orc n hp hin hout hctx with
      ⟨t, hres, heq⟩ | ⟨t, hres, heq⟩ | ⟨t, ps, hres, heq⟩
    · obtain ⟨-, -, -, -, -, hid, -⟩ := resolvePhase_error_frame hres
      obtain ⟨-, hgb⟩ := resolvePhase_pos_error_bits hn rfl rfl hres
      rw [heq]
      exact ⟨by rw [hid], hgb⟩
    · obtain ⟨-, -, -, hr⟩ := resolvePhase_pos_ok_bits hn hres
      obtain ⟨ps, -, hps⟩ := hr
      simp at hps
    · obtain ⟨hid, hpg, hgb, -⟩ := resolvePhase_pos_ok_bits hn hres
      rw [heq]
      refine ⟨?_, ?_⟩
      · rw [(renderPhase_frame cfg orc ps t).2.2.2.2.1, hid]
      · rw [(renderPhase_frame cfg orc ps t).2.2.2.1,
          (renderPhase_frame cfg orc ps t).2.2.1, hgb, hpg]
        simp
  · intro hn
    rcases dsaparam_main_resolve_cases cfg orc n hp hin hout hctx with
      ⟨t, hres, heq⟩ | ⟨t, hres, heq⟩ | ⟨t, ps, hres, heq⟩
    · rw [resolvePhase_nonpos_eq cfg orc n _ hn] at hres
      simp at hres
    · rw [resolvePhase_nonpos_eq cfg orc n _ hn] at hres
      simp only [Except.ok.injEq, Prod.mk.injEq] at hres
      obtain ⟨h1, -⟩ := hres
      rw [heq, ← h1]
      exact ⟨rfl, rfl, rfl⟩
    · rw [resolvePhase_nonpos_eq cfg orc n _ hn] at hres
      simp only [Except.ok.injEq, Prod.mk.injEq] at hres
      obtain ⟨h1, -⟩ := hres
      rw [heq]
      refine ⟨?_, ?_, ?_⟩
      · rw [(renderPhase_frame cfg orc ps t).2.2.1, ← h1]
      · rw [(renderPhase_frame cfg orc ps t).2.2.2.2.1, ← h1]
      · rw [(renderPhase_frame cfg orc ps t).2.2.2.2.2, ← h1]

theorem resolvePhase_pos_error_invoked {cfg : Cmdline} {orc : Oracle} {numbits : Int}
    {s t : RunState} (hn : 0 < numbits)
    (hpi : orc.paramgenInitOk = true) (hsb : orc.setBitsOk = true)
    (h : resolvePhase cfg orc numbits s = Except.error t) :
    t.paramgenInvoked = true := by
  unfold resolvePhase at h
  rw [if_pos hn] at h
  repeat' split at h
  all_goals simp_all
  all_goals (subst h; simp)

/-- C4 witness input: no positional argument, so `numbits` stays -1 and
the run loads from input. -/
def cfgLoad : Cmdline := {}

/-- C4 witness: the dichotomy instantiated on the load path (no
positional argument, PEM input decoded from `orcAll`). -/
theorem c4_parameter_source_dichotomy_witness :
    (dsaparam_main cfgLoad orcAll).paramgenInvoked = false
    ∧ (dsaparam_main cfgLoad orcAll).inputDecoded = true
    ∧ (dsaparam_main cfgLoad orcAll).params
        = (if cfgLoad.informat = Format.ASN1 then orcAll.derDecode else orcAll.pemDecode) :=
  (c4_parameter_source_dichotomy cfgLoad orcAll (-1) (by decide) rfl rfl rfl).2 (by decide)

/-- Command line requesting the text dump and the `-C` source fragment. -/
def cfgC5 : Cmdline := { text := true, C := true }

/-- C5, counterexample: in the successful run `dsaparam -text -C` the
source-code fragment is written to the standard output stream
(`bio_out`), and the configured output stream receives no source-code
record — contradicting the claim that all renderings go to the single
configured output stream. -/
theorem c5_counterexample :
    (dsaparam_main cfgC5 orcAll).ret = 0
    ∧ (dsaparam_main cfgC5 orcAll).stdout = [Rec.sourceCode (cFragment psSample)]
    ∧ (dsaparam_main cfgC5 orcAll).out.filter Rec.isSourceCode = [] :=
  ⟨rfl, rfl, rfl⟩

/-- C5, amended: given resolved parameters, the renderings are gated
independently and performed in the fixed order text dump, source-code
fragment, serialized parameters, then private key — the text and
serialized records appended to the configured output stream, the
source-code fragment appended to the standard output stream. -/
theorem c5_amended_render_order (cfg : Cmdline) (orc : Oracle) (ps : DomainParams)
    (s : RunState) (k : Nat)
    (hwp : orc.writeParamsOk = true) (hkc : orc.keyCtxNewOk = true)
    (hki : orc.keygenInitOk = true) (hkr : orc.keygenResult = some k)
    (hwk : orc.writeKeyOk = true) :
    (renderPhase cfg orc ps s).out =
      s.out ++ (if cfg.text then [Rec.textDump ps] else [])
      ++ (if (if cfg.outformat = Format.ASN1 && cfg.genkey then true else cfg.noout) then []
          else [if cfg.outformat = Format.ASN1 then Rec.paramsDER ps else Rec.paramsPEM ps])
      ++ (if cfg.genkey then
            [if cfg.outformat = Format.ASN1 then Rec.privKeyDER k else Rec.privKeyPEM k]
          else [])
    ∧ (renderPhase cfg orc ps s).stdout =
        s.stdout ++ (if cfg.C then [Rec.sourceCode (cFragment ps)] else []) := by
  unfold renderPhase keyPhase
  cases hT : cfg.text <;> cases hC : cfg.C <;> cases hN : cfg.noout <;>
    cases hG : cfg.genkey <;> cases hF : cfg.outformat <;>
      simp [hT, hC, hN, hG, hF, hwp, hkc, hki, hkr, hwk]

/-- C5 witness input: all renderings and key generation requested. -/
def cfgC5w : Cmdline := { text := true, C := true, genkey := true }

/-- C5 witness: the amended rendering order instantiated at a run
requesting text, source code, serialized parameters and a key. -/
theorem c5_amended_render_order_witness :
    (renderPhase cfgC5w orcAll psSample {}).out =
      ({} : RunState).out ++ (if cfgC5w.text then [Rec.textDump psSample] else [])
      ++ (if (if cfgC5w.outformat = Format.ASN1 && cfgC5w.genkey then true else cfgC5w.noout)
          then []
          else [if cfgC5w.outformat = Format.ASN1 then Rec.paramsDER psSample
                else Rec.paramsPEM psSample])
      ++ (if cfgC5w.genkey then
            [if cfgC5w.outformat = Format.ASN1 then Rec.privKeyDER 42 else Rec.privKeyPEM 42]
          else [])
    ∧ (renderPhase cfgC5w orcAll psSample {}).stdout =
        ({} : RunState).stdout
        ++ (if cfgC5w.C then [Rec.sourceCode (cFragment psSample)] else []) :=
  c5_amended_render_order cfgC5w orcAll psSample {} 42 rfl rfl rfl rfl rfl

/-- C6: on the load path, an input stream that decodes to nothing yields
the `unable to load DSA parameters` diagnostic, exit code 1, and no
record written to either output stream. -/
theorem c6_load_failure_no_output (cfg : Cmdline) (orc : Oracle) (n : Int)
    (hp : parseNumbits cfg.positional = some n) (hn : ¬ n > 0)
    (hin : orc.openInOk = true) (hout : orc.openOutOk = true) (hctx : orc.ctxNewOk = true)
    (hdec : (if cfg.informat = Format.ASN1 then orc.derDecode else orc.pemDecode) = none) :
    (dsaparam_main cfg orc).ret = 1
    ∧ (dsaparam_main cfg orc).diag = [Diag.unableToLoad]
    ∧ (dsaparam_main cfg orc).out = []
    ∧ (dsaparam_main cfg orc).stdout = [] := by
  rcases dsaparam_main_resolve_cases cfg orc n hp hin hout hctx with
    ⟨t, hres, heq⟩ | ⟨t, hres, heq⟩ | ⟨t, ps, hres, heq⟩
  · rw [resolvePhase_nonpos_eq cfg orc n _ hn] at hres
    simp at hres
  · rw [resolvePhase_nonpos_eq cfg orc n _ hn] at hres
    simp only [Except.ok.injEq, Prod.mk.injEq] at hres
    obtain ⟨h1, -⟩ := hres
    rw [heq, ← h1]
    exact ⟨rfl, rfl, rfl, rfl⟩
  · rw [resolvePhase_nonpos_eq cfg orc n _ hn] at hres
    simp only [Except.ok.injEq, Prod.mk.injEq] at hres
    obtain ⟨-, h2⟩ := hres
    rw [hdec] at h2
    simp at h2

/-- Oracle on which every decode fails (all `Option` results default to
`none`) while the infrastructure calls succeed. -/
def orcEmpty : Oracle := {}

/-- C6 witness: the theorem instantiated at a plain `dsaparam` run whose
PEM input does not decode. -/
theorem c6_load_failure_no_output_witness :
    (dsaparam_main cfgLoad orcEmpty).ret = 1
    ∧ (dsaparam_main cfgLoad orcEmpty).diag = [Diag.unableToLoad]
    ∧ (dsaparam_main cfgLoad orcEmpty).out = []
    ∧ (dsaparam_main cfgLoad orcEmpty).stdout = [] :=
  c6_load_failure_no_output cfgLoad orcEmpty (-1) (by decide) (by decide) rfl rfl rfl rfl

/-- C7: the `-C` source-code rendering is a function of (p, q, g) alone
(deterministic), its three byte arrays decode back to exactly p, q and g
(big-endian minimal: no leading zero byte), and the emitted function
name is `get_dsa` suffixed with the bit length of p. -/
theorem c7_source_code_rendering_faithful (ps : DomainParams) :
    cFragment ps = cFragment ps
    ∧ bin2bn (cFragment ps).pBytes = ps.p
    ∧ bin2bn (cFragment ps).qBytes = ps.q
    ∧ bin2bn (cFragment ps).gBytes = ps.g
    ∧ (cFragment ps).pBytes.head? ≠ some 0
    ∧ (cFragment ps).qBytes.head? ≠ some 0
    ∧ (cFragment ps).gBytes.head? ≠ some 0
    ∧ (cFragment ps).funcName = "get_dsa" ++ toString (numBits ps.p) :=
  ⟨rfl, bin2bn_bn2bin ps.p, bin2bn_bn2bin ps.q, bin2bn_bn2bin ps.g,
    bn2bin_head_ne_zero ps.p, bn2bin_head_ne_zero ps.q, bn2bin_head_ne_zero ps.g, rfl⟩

/-- C8: the progress callback writes nothing when verbose is off; when
verbose is on it writes exactly one character (the one `cbChar` maps the
keygen-info signal to) and then flushes the diagnostic stream. -/
theorem c8_progress_callback (p : Int) :
    gendsa_cb false p = []
    ∧ gendsa_cb true p = [DiagAct.write (cbChar p), DiagAct.flush] :=
  ⟨rfl, rfl⟩

/-- C9: a requested bit length above `OPENSSL_DSA_MAX_MODULUS_BITS`
produces the advisory warning on the diagnostic stream, and (when the
paramgen init and set-bits calls succeed) generation is still invoked —
the warning never aborts the run by itself. -/
theorem c9_maxbits_warning_nonblocking (cfg : Cmdline) (orc : Oracle) (n : Int)
    (hp : parseNumbits cfg.positional = some n)
    (hn : n > OPENSSL_DSA_MAX_MODULUS_BITS)
    (hin : orc.openInOk = true) (hout : orc.openOutOk = true) (hctx : orc.ctxNewOk = true)
    (hpi : orc.paramgenInitOk = true) (hsb : orc.setBitsOk = true) :
    Diag.maxBitsWarning OPENSSL_DSA_MAX_MODULUS_BITS n ∈ (dsaparam_main cfg orc).diag
    ∧ (dsaparam_main cfg orc).paramgenInvoked = true := by
  have hn0 : 0 < n := by
    have h10 : (0 : Int) < OPENSSL_DSA_MAX_MODULUS_BITS := by decide
    omega
  rcases dsaparam_main_resolve_cases cfg orc n hp hin hout hctx with
    ⟨t, hres, heq⟩ | ⟨t, hres, heq⟩ | ⟨t, ps, hres, heq⟩
  · rw [heq]
    exact ⟨resolvePhase_warn_error hn hres,
      resolvePhase_pos_error_invoked hn0 hpi hsb hres⟩
  · obtain ⟨-, -, -, hr⟩ := resolvePhase_pos_ok_bits hn0 hres
    obtain ⟨ps, -, hps⟩ := hr
    simp at hps
  · rw [heq]
    obtain ⟨l, hl⟩ := renderPhase_diag_mono cfg orc ps t
    constructor
    · rw [hl]
      exact List.mem_append_left _ (resolvePhase_warn_ok hn hres)
    · rw [(renderPhase_frame cfg orc ps t).2.2.1]
      exact (resolvePhase_pos_ok_bits hn0 hres).2.1

/-- Command line requesting 12000-bit generation (above the ceiling). -/
def cfgC9 : Cmdline := { positional := [some 12000] }

/-- C9 witness: the warning theorem instantiated at `dsaparam 12000`
with an all-succeeding oracle. -/
theorem c9_maxbits_warning_nonblocking_witness :
    Diag.maxBitsWarning OPENSSL_DSA_MAX_MODULUS_BITS 12000 ∈ (dsaparam_main cfgC9 orcAll).diag
    ∧ (dsaparam_main cfgC9 orcAll).paramgenInvoked = true :=
  c9_maxbits_warning_nonblocking cfgC9 orcAll 12000 (by decide) (by decide) rfl rfl rfl rfl rfl

/-- C10: a positional argument of exactly 0 is accepted by the argument
check (`opt_int` succeeds and 0 is not negative), yet the run takes the
load-from-input path: generation is never invoked and input decoding is
attempted. -/
theorem c10_zero_bits_loads_input (cfg : Cmdline) (orc : Oracle)
    (hp : cfg.positional = [some 0])
    (hin : orc.openInOk = true) (hout : orc.openOutOk = true) (hctx : orc.ctxNewOk = true) :
    parseNumbits cfg.positional = some 0
    ∧ (dsaparam_main cfg orc).paramgenInvoked = false
    ∧ (dsaparam_main cfg orc).inputDecoded = true := by
  have hp0 : parseNumbits cfg.positional = some 0 := by rw [hp]; decide
  have hn : ¬ (0 : Int) > 0 := by decide
  refine ⟨hp0, ?_⟩
  rcases dsaparam_main_resolve_cases cfg orc 0 hp0 hin hout hctx with
    ⟨t, hres, heq⟩ | ⟨t, hres, heq⟩ | ⟨t, ps, hres, heq⟩
  · rw [resolvePhase_nonpos_eq cfg orc 0 _ hn] at hres
    simp at hres
  · rw [resolvePhase_nonpos_eq cfg orc 0 _ hn] at hres
    simp only [Except.ok.injEq, Prod.mk.injEq] at hres
    obtain ⟨h1, -⟩ := hres
    rw [heq, ← h1]
    exact ⟨rfl, rfl⟩
  · rw [resolvePhase_nonpos_eq cfg orc 0 _ hn] at hres
    simp only [Except.ok.injEq, Prod.mk.injEq] at hres
    obtain ⟨h1, -⟩ := hres
    rw [heq]
    exact ⟨by rw [(renderPhase_frame cfg orc ps t).2.2.1, ← h1],
           by rw [(renderPhase_frame cfg orc ps t).2.2.2.2.1, ← h1]⟩

/-- Command line whose positional bit-length argument is exactly 0. -/
def cfgC10 : Cmdline := { positional := [some 0] }

/-- C10 witness: the theorem instantiated at `dsaparam 0` with an
all-succeeding oracle. -/
theorem c10_zero_bits_loads_input_witness :
    parseNumbits cfgC10.positional = some 0
    ∧ (dsaparam_main cfgC10 orcAll).paramgenInvoked = false
    ∧ (dsaparam_main cfgC10 orcAll).inputDecoded = true :=
  c10_zero_bits_loads_input cfgC10 orcAll rfl rfl rfl rfl
